import Mathlib

/-!
Shallow embedding of the training/evaluation control loop of train.py
(single-image rain removal trainer): PSNR metric, multi-scale SSIM loss
composition, checkpoint save/load, validation-pass metric averaging, and
the step-counter loop, together with proofs of the specified properties.

Images are modelled as flat lists of rational pixel values; the neural
network, the SSIM scorer and the L1 loss are opaque collaborators and are
passed in as function parameters, exactly as the spec treats them.
Python arithmetic that can raise ZeroDivisionError is modelled in the
Except monad.
-/

namespace Train

/-- Runtime error raised by Python arithmetic: division or modulo by zero. -/
inductive PyErr where
  | zeroDivision
deriving DecidableEq, Repr

/-- Python integer modulo: a % b raises ZeroDivisionError when b = 0. -/
def pyMod (a b : Nat) : Except PyErr Nat :=
  if b = 0 then .error .zeroDivision else .ok (a % b)

/-- Python division: a / b raises ZeroDivisionError when b = 0. -/
def pyDiv (a b : ℚ) : Except PyErr ℚ :=
  if b = 0 then .error .zeroDivision else .ok (a / b)

/-- An image (or batch of images): a flat list of pixel values. -/
abbrev Img := List ℚ

/-- np.clip(img, 0, 255): clamp every pixel into the interval from 0 to 255. -/
def clip255 (img : Img) : Img := img.map (fun x => max 0 (min x 255))

/-- np.mean of the elementwise squared difference of the two images after
dividing each by 255 (train.py line 36): the sum of squared differences of
the normalized pixels, divided by the pixel count of the first image. -/
def meanSqDiff (img1 img2 : Img) : ℚ :=
  (List.zipWith (fun a b => (a / 255 - b / 255) ^ 2) img1 img2).sum / img1.length

/-- PSNR from train.py lines 32 to 41: clip both images to the range 0 to 255,
normalize by 255, take the mean squared difference; if it is exactly zero
return the sentinel 100 (left alternative), otherwise the value
20 * log10(PIXEL_MAX / sqrt(mse)) with PIXEL_MAX = 1, represented
symbolically by the right alternative carrying the mse argument. -/
def PSNR (img1 img2 : Img) : ℚ ⊕ ℚ :=
  let i1 := clip255 img1
  let i2 := clip255 img2
  let mse := meanSqDiff i1 i2
  if mse = 0 then .inl 100 else .inr mse

lemma zipWith_sqDiff_self (l : Img) :
    (List.zipWith (fun a b => (a / 255 - b / 255) ^ 2) l l).sum = 0 := by
  induction l with
  | nil => simp
  | cons x xs ih => simp [List.zipWith, ih]

lemma meanSqDiff_self (l : Img) : meanSqDiff l l = 0 := by
  unfold meanSqDiff
  rw [zipWith_sqDiff_self]
  simp

/-- C4: PSNR clips both images to the 0..255 range, normalizes to 0..1,
computes MSE as the mean squared pixel difference, returns exactly the
sentinel 100 precisely when that MSE is zero (in particular on two equal
images), and otherwise returns the logarithmic formula applied to the MSE. -/
theorem psnr_sentinel_and_formula (img1 img2 : Img) :
    PSNR img1 img2 =
      (if meanSqDiff (clip255 img1) (clip255 img2) = 0 then
        Sum.inl 100
      else
        Sum.inr (meanSqDiff (clip255 img1) (clip255 img2)))
    ∧ PSNR img1 img1 = Sum.inl 100 := by
  refine ⟨rfl, ?_⟩
  unfold PSNR
  rw [if_pos (meanSqDiff_self (clip255 img1))]

/-- A training/validation batch: paired degraded (O) and clean (B) images at
original, half, quarter and eighth resolution, as produced by the dataset. -/
structure TrainBatch where
  O : Img
  B : Img
  O_2 : Img
  B_2 : Img
  O_4 : Img
  B_4 : Img
  O_8 : Img
  B_8 : Img
deriving DecidableEq, Repr

/-- The five outputs of the model for one batch: three main-path restoration
outputs plus two auxiliary multi-exit outputs (train.py line 146). -/
structure NetOut where
  out1 : Img
  out2 : Img
  out3 : Img
  multiexit2 : Img
  multiexit4 : Img
deriving DecidableEq, Repr

/-- Mutable session state owned by Session (train.py lines 43 to 68): model
parameters, optimizer state, the step counter, and the learning-rate
scheduler position (sche_net.last_epoch). Parameter and optimizer state
types are abstract. -/
structure Session (Th Om : Type) where
  net : Th
  optNet : Om
  step : Nat
  schedLastEpoch : Int
deriving DecidableEq, Repr

/-- The checkpoint record written by save_checkpoints_net (train.py lines
101 to 108): the keys net, clock_net and opt_net. -/
structure Checkpoint (Th Om : Type) where
  net : Th
  clock_net : Nat
  opt_net : Om
deriving DecidableEq, Repr

/-- save_checkpoints_net: serializes the model state, the step counter and
the optimizer state into one checkpoint record (train.py lines 101 to 108). -/
def save_checkpoints_net (s : Session Th Om) : Checkpoint Th Om :=
  { net := s.net, clock_net := s.step, opt_net := s.optNet }

/-- The state update performed by load_checkpoints_net once the checkpoint
record has been read (train.py lines 118 to 121): restore model and
optimizer state, set step to the saved clock_net, and set the scheduler
position to that same step value. -/
def restore_from_checkpoint (s : Session Th Om) (obj : Checkpoint Th Om) :
    Session Th Om :=
  { s with net := obj.net, optNet := obj.opt_net, step := obj.clock_net,
           schedLastEpoch := (obj.clock_net : Int) }

/-- load_checkpoints_net (train.py lines 110 to 121): look the name up in the
checkpoint store; on FileNotFoundError log and return with the session
unchanged, otherwise restore net, optimizer, step and scheduler position. -/
def load_checkpoints_net (s : Session Th Om)
    (store : String → Option (Checkpoint Th Om)) (name : String) :
    Session Th Om :=
  match store name with
  | none => s
  | some obj => restore_from_checkpoint s obj

/-- The session state right after Session.__init__ (train.py lines 43 to 68):
step = 0, freshly constructed model parameters and optimizer state; the
initial scheduler position is a parameter of the model. -/
def initialSession (th0 : Th) (om0 : Om) (e0 : Int) : Session Th Om :=
  { net := th0, optNet := om0, step := 0, schedLastEpoch := e0 }

/-- One call of Session.inf_batch with name equal to train (train.py lines
130 to 164): forward the batch through the net, score the three main
outputs against B and the two auxiliary exits against B_2 and B_4 with
SSIM, form the scalar loss
  -ssim1 - ssim2 - ssim3 - 0.05 * ssimmulti2 - 0.001 * ssimmulti4,
backpropagate it and apply one optimizer step — modelled by the abstract
update optStep applied to the current parameters, optimizer state and that
loss. Returns the updated session and the loss. -/
def inf_batch_train (netF : Th → Img → Img → Img → NetOut)
    (ssim : Img → Img → ℚ) (optStep : Th → Om → ℚ → Th × Om)
    (s : Session Th Om) (batch : TrainBatch) : Session Th Om × ℚ :=
  let o := netF s.net batch.O batch.O_2 batch.O_4
  let ssim1 := ssim o.out1 batch.B
  let ssim2 := ssim o.out2 batch.B
  let ssim3 := ssim o.out3 batch.B
  let ssimmulti2 := ssim o.multiexit2 batch.B_2
  let ssimmulti4 := ssim o.multiexit4 batch.B_4
  let loss := -ssim1 - ssim2 - ssim3
      - (5 / 100) * ssimmulti2 - (1 / 1000) * ssimmulti4
  let p := optStep s.net s.optNet loss
  ({ s with net := p.1, optNet := p.2 }, loss)

/-- C2: for every batch, the training step computes the scalar loss as
exactly the negated weighted sum of the five SSIM scores — the three main
outputs against the full-resolution clean image and the two auxiliary
exits against the half- and quarter-resolution clean images, weighted
1, 1, 1, 0.05 and 0.001 — and that very loss is what is handed to the
backward/optimizer update that produces the new parameters. -/
theorem train_loss_formula (netF : Th → Img → Img → Img → NetOut)
    (ssim : Img → Img → ℚ) (optStep : Th → Om → ℚ → Th × Om)
    (s : Session Th Om) (batch : TrainBatch) :
    (inf_batch_train netF ssim optStep s batch).2 =
      -(ssim (netF s.net batch.O batch.O_2 batch.O_4).out1 batch.B
        + ssim (netF s.net batch.O batch.O_2 batch.O_4).out2 batch.B
        + ssim (netF s.net batch.O batch.O_2 batch.O_4).out3 batch.B
        + (5 / 100) *
            ssim (netF s.net batch.O batch.O_2 batch.O_4).multiexit2 batch.B_2
        + (1 / 1000) *
            ssim (netF s.net batch.O batch.O_2 batch.O_4).multiexit4 batch.B_4)
    ∧ (inf_batch_train netF ssim optStep s batch).1.net =
        (optStep s.net s.optNet
          (inf_batch_train netF ssim optStep s batch).2).1
    ∧ (inf_batch_train netF ssim optStep s batch).1.optNet =
        (optStep s.net s.optNet
          (inf_batch_train netF ssim optStep s batch).2).2 := by
  refine ⟨?_, rfl, rfl⟩
  unfold inf_batch_train
  ring

/-- A concrete session state used to exercise the checkpoint round trip:
the scheduler position differs from the step counter (as it does in the
training loop, which advances the scheduler before the save sites). -/
def c3_state : Session ℚ ℚ :=
  { net := 7, optNet := 9, step := 3, schedLastEpoch := 5 }

/-- A checkpoint store holding exactly the record just saved from
c3_state under the rolling name. -/
def c3_store : String → Option (Checkpoint ℚ ℚ) := fun name =>
  if name = "latest_net" then some (save_checkpoints_net c3_state) else none

/-- C3 counterexample: saving c3_state and loading it back does not restore
the learning-rate scheduler position to its value at save time — load sets
sche_net.last_epoch to the saved step counter (3), not to the in-memory
scheduler position (5). -/
theorem checkpoint_roundtrip_sched_cex :
    (load_checkpoints_net c3_state c3_store "latest_net").schedLastEpoch ≠
      c3_state.schedLastEpoch := by
  decide

/-- C3 amended: saving then loading a checkpoint under the same name
restores the step counter, the model parameters and the optimizer state
exactly as saved; the scheduler position is not part of the checkpoint and
is instead reset to the saved step counter, so it equals its value at save
time only when that value already equalled the step counter. -/
theorem checkpoint_roundtrip_amended (s : Session Th Om)
    (store : String → Option (Checkpoint Th Om)) (name : String)
    (h : store name = some (save_checkpoints_net s)) :
    (load_checkpoints_net s store name).step = s.step
    ∧ (load_checkpoints_net s store name).net = s.net
    ∧ (load_checkpoints_net s store name).optNet = s.optNet
    ∧ (load_checkpoints_net s store name).schedLastEpoch = (s.step : Int) := by
  unfold load_checkpoints_net
  rw [h]
  exact ⟨rfl, rfl, rfl, rfl⟩

/-- C3 amended, witnessed on c3_state and its store. -/
theorem checkpoint_roundtrip_amended_witness :
    c3_store "latest_net" = some (save_checkpoints_net c3_state)
    ∧ (load_checkpoints_net c3_state c3_store "latest_net").step = c3_state.step
    ∧ (load_checkpoints_net c3_state c3_store "latest_net").net = c3_state.net
    ∧ (load_checkpoints_net c3_state c3_store "latest_net").optNet
        = c3_state.optNet
    ∧ (load_checkpoints_net c3_state c3_store "latest_net").schedLastEpoch
        = (c3_state.step : Int) := by
  have h : c3_store "latest_net" = some (save_checkpoints_net c3_state) := by
    decide
  have hr := checkpoint_roundtrip_amended c3_state c3_store "latest_net" h
  exact ⟨h, hr⟩

/-- C6: loading a checkpoint whose file is missing from the store is a
no-op — the session is returned unchanged; in particular the fresh session
built by Session.__init__ keeps its initial model parameters, optimizer
state and step counter 0, so training proceeds from a cold start. -/
theorem load_missing_checkpoint_noop (s : Session Th Om) (th0 : Th) (om0 : Om)
    (e0 : Int) (store : String → Option (Checkpoint Th Om)) (name : String)
    (h : store name = none) :
    load_checkpoints_net s store name = s
    ∧ load_checkpoints_net (initialSession th0 om0 e0) store name
        = initialSession th0 om0 e0
    ∧ (initialSession th0 om0 e0 : Session Th Om).step = 0 := by
  unfold load_checkpoints_net
  rw [h]
  exact ⟨rfl, rfl, rfl⟩

/-- C6, witnessed on an empty store and a concrete fresh session. -/
theorem load_missing_checkpoint_noop_witness :
    (fun _ : String => (none : Option (Checkpoint ℚ ℚ))) "latest_net" = none
    ∧ load_checkpoints_net c3_state (fun _ => none) "latest_net" = c3_state
    ∧ load_checkpoints_net (initialSession (1 : ℚ) (2 : ℚ) 0) (fun _ => none)
        "latest_net" = initialSession 1 2 0
    ∧ (initialSession (1 : ℚ) (2 : ℚ) 0 : Session ℚ ℚ).step = 0 :=
  ⟨rfl, load_missing_checkpoint_noop c3_state 1 2 0 (fun _ => none)
    "latest_net" rfl⟩

/-- Multiply every pixel by 255: the scaling applied to the numpy arrays
handed to PSNR in inf_batch_test (train.py lines 205 to 207). -/
def scale255 (img : Img) : Img := img.map (fun x => x * 255)

/-- The seven values returned by inf_batch_test (train.py line 212): the L1
loss, then SSIM and PSNR for each of the three main outputs. PSNR values
keep the sentinel-or-formula representation of the PSNR model. -/
structure EvalMetrics where
  l1_loss : ℚ
  ssim1 : ℚ
  psnr1 : ℚ ⊕ ℚ
  ssim2 : ℚ
  psnr2 : ℚ ⊕ ℚ
  ssim4 : ℚ
  psnr4 : ℚ ⊕ ℚ
deriving DecidableEq, Repr

/-- Session.inf_batch_test (train.py lines 188 to 212): forward the batch
through the net inside torch.no_grad (the embedding is a pure function, so
no gradient state exists), compute the L1 loss of out1 against B, SSIM of
out1, out2 and out3 each against the full-resolution B, and PSNR of each of
the three outputs scaled by 255 against B scaled by 255. The method body
assigns to no session attribute and applies no optimizer update. -/
def inf_batch_test (netF : Img → Img → Img → NetOut)
    (ssim l1 : Img → Img → ℚ) (batch : TrainBatch) : EvalMetrics :=
  let o := netF batch.O batch.O_2 batch.O_4
  { l1_loss := l1 o.out1 batch.B
    ssim1 := ssim o.out1 batch.B
    ssim2 := ssim o.out2 batch.B
    ssim4 := ssim o.out3 batch.B
    psnr1 := PSNR (scale255 o.out1) (scale255 batch.B)
    psnr2 := PSNR (scale255 o.out2) (scale255 batch.B)
    psnr4 := PSNR (scale255 o.out3) (scale255 batch.B) }

/-- Modelled from the spec wording of the eval-step claim, for comparison
with inf_batch_test: each of the three SSIM and PSNR metrics is compared
against the reference at its corresponding resolution, i.e. the second
against the half-resolution clean image B_2 and the third against the
quarter-resolution clean image B_4. -/
def eval_step_multiscale_spec (netF : Img → Img → Img → NetOut)
    (ssim l1 : Img → Img → ℚ) (batch : TrainBatch) : EvalMetrics :=
  let o := netF batch.O batch.O_2 batch.O_4
  { l1_loss := l1 o.out1 batch.B
    ssim1 := ssim o.out1 batch.B
    ssim2 := ssim o.out2 batch.B_2
    ssim4 := ssim o.out3 batch.B_4
    psnr1 := PSNR (scale255 o.out1) (scale255 batch.B)
    psnr2 := PSNR (scale255 o.out2) (scale255 batch.B_2)
    psnr4 := PSNR (scale255 o.out3) (scale255 batch.B_4) }

/-- A concrete net: constant five outputs, ignoring its inputs. -/
def c5_net : Img → Img → Img → NetOut :=
  fun _ _ _ => ⟨[1], [2], [3], [4], [5]⟩

/-- A concrete stand-in SSIM scorer: difference of pixel sums. -/
def c5_ssim : Img → Img → ℚ := fun a b => a.sum - b.sum

/-- A concrete stand-in L1 loss returning zero. -/
def c5_l1 : Img → Img → ℚ := fun _ _ => 0

/-- A concrete batch whose half-resolution clean image differs from the
full-resolution one. -/
def c5_batch : TrainBatch :=
  { O := [0], B := [0], O_2 := [0], B_2 := [1],
    O_4 := [0], B_4 := [0], O_8 := [0], B_8 := [0] }

/-- C5 counterexample: the second SSIM metric computed by inf_batch_test is
the score of out2 against the full-resolution reference B, not against the
half-resolution reference B_2 as the claim states; on a concrete batch with
B different from B_2 the two disagree. -/
theorem eval_step_resolution_cex :
    (inf_batch_test c5_net c5_ssim c5_l1 c5_batch).ssim2 ≠
      (eval_step_multiscale_spec c5_net c5_ssim c5_l1 c5_batch).ssim2 := by
  simp only [inf_batch_test, eval_step_multiscale_spec, c5_net, c5_ssim,
    c5_l1, c5_batch]
  norm_num

/-- C5 amended: eval runs the forward pass with no gradient tracking and
returns seven plain scalars — the L1 loss of out1 against B, the SSIM of
each of the three main outputs against the full-resolution reference B, and
the PSNR (pixel ceiling 1 after normalization) of each of the three outputs
scaled by 255 against B scaled by 255 — all three SSIM/PSNR pairs use the
full-resolution reference, not per-resolution references. -/
theorem eval_step_fullres_metrics (netF : Img → Img → Img → NetOut)
    (ssim l1 : Img → Img → ℚ) (batch : TrainBatch) :
    (inf_batch_test netF ssim l1 batch).l1_loss =
      l1 (netF batch.O batch.O_2 batch.O_4).out1 batch.B
    ∧ (inf_batch_test netF ssim l1 batch).ssim1 =
        ssim (netF batch.O batch.O_2 batch.O_4).out1 batch.B
    ∧ (inf_batch_test netF ssim l1 batch).ssim2 =
        ssim (netF batch.O batch.O_2 batch.O_4).out2 batch.B
    ∧ (inf_batch_test netF ssim l1 batch).ssim4 =
        ssim (netF batch.O batch.O_2 batch.O_4).out3 batch.B
    ∧ (inf_batch_test netF ssim l1 batch).psnr1 =
        PSNR (scale255 (netF batch.O batch.O_2 batch.O_4).out1)
          (scale255 batch.B)
    ∧ (inf_batch_test netF ssim l1 batch).psnr2 =
        PSNR (scale255 (netF batch.O batch.O_2 batch.O_4).out2)
          (scale255 batch.B)
    ∧ (inf_batch_test netF ssim l1 batch).psnr4 =
        PSNR (scale255 (netF batch.O batch.O_2 batch.O_4).out3)
          (scale255 batch.B) :=
  ⟨rfl, rfl, rfl, rfl, rfl, rfl, rfl⟩

/-- inf_batch_test as an operation on the session state: the method reads
the model parameters through the net and writes nothing back — the body of
inf_batch_test contains no assignment to self and no optimizer call, so the
session component of the result is the incoming session. -/
def inf_batch_test_op (netF : Th → Img → Img → Img → NetOut)
    (ssim l1 : Img → Img → ℚ) (s : Session Th Om) (batch : TrainBatch) :
    Session Th Om × EvalMetrics :=
  (s, inf_batch_test (netF s.net) ssim l1 batch)

/-- C9: evaluation is idempotent and mutation-free — a call leaves the
session (model parameters, optimizer state, step counter, scheduler
position) unchanged, and a second call on the state returned by the first
yields exactly the same metric values. -/
theorem eval_step_idempotent (netF : Th → Img → Img → Img → NetOut)
    (ssim l1 : Img → Img → ℚ) (s : Session Th Om) (batch : TrainBatch) :
    (inf_batch_test_op netF ssim l1 s batch).1 = s
    ∧ (inf_batch_test_op netF ssim l1
        (inf_batch_test_op netF ssim l1 s batch).1 batch).2 =
      (inf_batch_test_op netF ssim l1 s batch).2
    ∧ (inf_batch_test_op netF ssim l1 s batch).1.net = s.net
    ∧ (inf_batch_test_op netF ssim l1 s batch).1.optNet = s.optNet
    ∧ (inf_batch_test_op netF ssim l1 s batch).1.step = s.step :=
  ⟨rfl, rfl, rfl, rfl, rfl⟩

/-- The seven per-batch scalars produced by inf_batch_test as the validation
loop consumes them (train.py line 247): loss, then ssim and psnr at the
three outputs. -/
structure ValMetrics where
  loss : ℚ
  ssim1 : ℚ
  psnr1 : ℚ
  ssim2 : ℚ
  psnr2 : ℚ
  ssim4 : ℚ
  psnr4 : ℚ
deriving DecidableEq, Repr

/-- The running sums of the validation pass (train.py lines 235 to 256):
seven accumulators initialized to 0 plus the sample counter num_all. -/
structure ValSums where
  ssim1_all : ℚ
  psnr1_all : ℚ
  ssim2_all : ℚ
  psnr2_all : ℚ
  ssim4_all : ℚ
  psnr4_all : ℚ
  loss_all : ℚ
  num_all : Nat
deriving DecidableEq, Repr

/-- The accumulation loop over the validation batches (train.py lines 246 to
256): add each metric into its running sum and increment num_all. -/
def valAccum (ms : List ValMetrics) : ValSums :=
  ms.foldl
    (fun a m =>
      { ssim1_all := a.ssim1_all + m.ssim1
        psnr1_all := a.psnr1_all + m.psnr1
        ssim2_all := a.ssim2_all + m.ssim2
        psnr2_all := a.psnr2_all + m.psnr2
        ssim4_all := a.ssim4_all + m.ssim4
        psnr4_all := a.psnr4_all + m.psnr4
        loss_all := a.loss_all + m.loss
        num_all := a.num_all + 1 })
    ⟨0, 0, 0, 0, 0, 0, 0, 0⟩

/-- The metric-averaging step at the end of the validation pass (train.py
lines 258 to 264): divide every accumulated sum by num_all, using Python
division which raises ZeroDivisionError when num_all is 0. -/
def valAverages (ms : List ValMetrics) : Except PyErr ValMetrics :=
  let a := valAccum ms
  do
    let loss_avg ← pyDiv a.loss_all (a.num_all : ℚ)
    let ssim1_avg ← pyDiv a.ssim1_all (a.num_all : ℚ)
    let psnr1_avg ← pyDiv a.psnr1_all (a.num_all : ℚ)
    let ssim2_avg ← pyDiv a.ssim2_all (a.num_all : ℚ)
    let psnr2_avg ← pyDiv a.psnr2_all (a.num_all : ℚ)
    let ssim4_avg ← pyDiv a.ssim4_all (a.num_all : ℚ)
    let psnr4_avg ← pyDiv a.psnr4_all (a.num_all : ℚ)
    pure ⟨loss_avg, ssim1_avg, psnr1_avg, ssim2_avg, psnr2_avg,
      ssim4_avg, psnr4_avg⟩

lemma valAccum_go_num (ms : List ValMetrics) (a : ValSums) :
    (ms.foldl
      (fun a m =>
        { ssim1_all := a.ssim1_all + m.ssim1
          psnr1_all := a.psnr1_all + m.psnr1
          ssim2_all := a.ssim2_all + m.ssim2
          psnr2_all := a.psnr2_all + m.psnr2
          ssim4_all := a.ssim4_all + m.ssim4
          psnr4_all := a.psnr4_all + m.psnr4
          loss_all := a.loss_all + m.loss
          num_all := a.num_all + 1 }) a).num_all = a.num_all + ms.length := by
  induction ms generalizing a with
  | nil => simp
  | cons m ms ih => simp [List.foldl, ih]; omega

/-- The sample counter at the end of the accumulation loop equals the number
of batches the validation dataloader yielded. -/
lemma valAccum_num_all (ms : List ValMetrics) :
    (valAccum ms).num_all = ms.length := by
  unfold valAccum
  rw [valAccum_go_num]
  simp

/-- C1 counterexample: when the validation dataloader yields no batches the
metric-averaging step divides the accumulated sums by num_all = 0 and
raises ZeroDivisionError — there is no guard in the code. -/
theorem val_averages_empty_div_zero :
    valAverages [] = Except.error PyErr.zeroDivision := by
  rfl

/-- C1 amended: the averaging step has no emptiness guard; it completes
exactly when the validation set is non-empty, in which case every average
is the accumulated sum divided by the sample count, and on an empty
validation set it raises a division-by-zero error. -/
theorem val_averages_nonempty_ok (ms : List ValMetrics) (h : ms ≠ []) :
    valAverages ms =
      Except.ok
        { loss := (valAccum ms).loss_all / ((valAccum ms).num_all : ℚ)
          ssim1 := (valAccum ms).ssim1_all / ((valAccum ms).num_all : ℚ)
          psnr1 := (valAccum ms).psnr1_all / ((valAccum ms).num_all : ℚ)
          ssim2 := (valAccum ms).ssim2_all / ((valAccum ms).num_all : ℚ)
          psnr2 := (valAccum ms).psnr2_all / ((valAccum ms).num_all : ℚ)
          ssim4 := (valAccum ms).ssim4_all / ((valAccum ms).num_all : ℚ)
          psnr4 := (valAccum ms).psnr4_all / ((valAccum ms).num_all : ℚ) } := by
  have hn : ((valAccum ms).num_all : ℚ) ≠ 0 := by
    rw [valAccum_num_all]
    exact_mod_cast List.length_pos.mpr h |>.ne'
  unfold valAverages
  simp [pyDiv, hn]
  rfl

/-- C1 amended, witnessed on a one-batch validation set. -/
theorem val_averages_nonempty_ok_witness :
    ([⟨1, 2, 3, 4, 5, 6, 7⟩] : List ValMetrics) ≠ []
    ∧ valAverages [⟨1, 2, 3, 4, 5, 6, 7⟩] =
        Except.ok
          { loss := (valAccum [⟨1, 2, 3, 4, 5, 6, 7⟩]).loss_all /
              ((valAccum [⟨1, 2, 3, 4, 5, 6, 7⟩]).num_all : ℚ)
            ssim1 := (valAccum [⟨1, 2, 3, 4, 5, 6, 7⟩]).ssim1_all /
              ((valAccum [⟨1, 2, 3, 4, 5, 6, 7⟩]).num_all : ℚ)
            psnr1 := (valAccum [⟨1, 2, 3, 4, 5, 6, 7⟩]).psnr1_all /
              ((valAccum [⟨1, 2, 3, 4, 5, 6, 7⟩]).num_all : ℚ)
            ssim2 := (valAccum [⟨1, 2, 3, 4, 5, 6, 7⟩]).ssim2_all /
              ((valAccum [⟨1, 2, 3, 4, 5, 6, 7⟩]).num_all : ℚ)
            psnr2 := (valAccum [⟨1, 2, 3, 4, 5, 6, 7⟩]).psnr2_all /
              ((valAccum [⟨1, 2, 3, 4, 5, 6, 7⟩]).num_all : ℚ)
            ssim4 := (valAccum [⟨1, 2, 3, 4, 5, 6, 7⟩]).ssim4_all /
              ((valAccum [⟨1, 2, 3, 4, 5, 6, 7⟩]).num_all : ℚ)
            psnr4 := (valAccum [⟨1, 2, 3, 4, 5, 6, 7⟩]).psnr4_all /
              ((valAccum [⟨1, 2, 3, 4, 5, 6, 7⟩]).num_all : ℚ) } :=
  ⟨by simp, val_averages_nonempty_ok [⟨1, 2, 3, 4, 5, 6, 7⟩] (by simp)⟩

/-- The rolling-checkpoint decision of one training-loop iteration
(train.py lines 229 to 230): compute step % int(save_steps / 16) with
Python modulo — which raises ZeroDivisionError when the truncated quotient
is 0 — and when the remainder is 0 persist a checkpoint under the fixed
name latest_net. Returns the list of checkpoint names written. -/
def rolling_ckpt_saves (step save_steps : Nat) : Except PyErr (List String) :=
  match pyMod step (save_steps / 16) with
  | .error e => .error e
  | .ok r => .ok (if r = 0 then ["latest_net"] else [])

/-- C7: for save_steps at least 16, the rolling checkpoint is written under
the fixed name latest_net exactly at the iterations whose step is a
multiple of save_steps / 16 (integer division); in particular with
save_steps = 16 the quotient is 1 and a checkpoint is written at every
step of the loop. -/
theorem rolling_ckpt_cadence (step save_steps : Nat) (h : 16 ≤ save_steps) :
    (rolling_ckpt_saves step save_steps = Except.ok ["latest_net"] ↔
      (save_steps / 16) ∣ step)
    ∧ ∀ s : Nat, rolling_ckpt_saves s 16 = Except.ok ["latest_net"] := by
  have h1 : 1 ≤ save_steps / 16 := (Nat.one_le_div_iff (by norm_num)).mpr h
  have hq : save_steps / 16 ≠ 0 := by omega
  constructor
  · unfold rolling_ckpt_saves pyMod
    rw [if_neg hq]
    simp only [Except.ok.injEq]
    constructor
    · intro hok
      by_contra hdvd
      have hmod : step % (save_steps / 16) ≠ 0 := fun hz =>
        hdvd (Nat.dvd_iff_mod_eq_zero.mpr hz)
      rw [if_neg hmod] at hok
      exact List.cons_ne_nil _ _ hok.symm
    · intro hdvd
      rw [if_pos (Nat.dvd_iff_mod_eq_zero.mp hdvd)]
  · intro s
    unfold rolling_ckpt_saves pyMod
    simp [Nat.mod_one]

/-- C7, witnessed at step 32 with save_steps 16. -/
theorem rolling_ckpt_cadence_witness :
    16 ≤ 16
    ∧ ((rolling_ckpt_saves 32 16 = Except.ok ["latest_net"] ↔ (16 / 16) ∣ 32)
        ∧ ∀ s : Nat, rolling_ckpt_saves s 16 = Except.ok ["latest_net"]) :=
  ⟨by decide, rolling_ckpt_cadence 32 16 (by decide)⟩

/-- C10: for every configured save_steps strictly below 16 the truncated
quotient save_steps / 16 is 0, so the rolling-checkpoint cadence check of
every loop iteration — the first one included — computes step modulo 0 and
raises ZeroDivisionError, and the iteration cannot complete. -/
theorem rolling_ckpt_div_zero (step save_steps : Nat) (h : save_steps < 16) :
    rolling_ckpt_saves step save_steps = Except.error PyErr.zeroDivision := by
  have hq : save_steps / 16 = 0 := Nat.div_eq_of_lt h
  simp [rolling_ckpt_saves, pyMod, hq]

/-- C10, witnessed at the first iteration of a run with save_steps 8. -/
theorem rolling_ckpt_div_zero_witness :
    8 < 16 ∧ rolling_ckpt_saves 0 8 = Except.error PyErr.zeroDivision :=
  ⟨by decide, rolling_ckpt_div_zero 0 8 (by decide)⟩

/-- The final value of the step counter when the training loop of
run_train_val exits (train.py lines 220 and 283): the loop guard is
step < total_step + 1 and the last statement of the body increments step
by exactly 1. -/
def loopFinalStep (step total_step : Nat) : Nat :=
  if h : step < total_step + 1 then loopFinalStep (step + 1) total_step
  else step
termination_by total_step + 1 - step

/-- The number of iterations the training loop performs from a given
starting value of the step counter. -/
def loopIterCount (step total_step : Nat) : Nat :=
  if h : step < total_step + 1 then loopIterCount (step + 1) total_step + 1
  else 0
termination_by total_step + 1 - step

lemma loopIterCount_char :
    ∀ k step total : Nat, step + k = total + 1 →
      loopIterCount step total = k := by
  intro k
  induction k with
  | zero =>
    intro step total hs
    unfold loopIterCount
    rw [dif_neg (by omega)]
  | succ k ih =>
    intro step total hs
    unfold loopIterCount
    rw [dif_pos (by omega), ih (step + 1) total (by omega)]

lemma loopFinalStep_char :
    ∀ k step total : Nat, step + k = total + 1 →
      loopFinalStep step total = total + 1 := by
  intro k
  induction k with
  | zero =>
    intro step total hs
    unfold loopFinalStep
    rw [dif_neg (by omega)]
    omega
  | succ k ih =>
    intro step total hs
    unfold loopFinalStep
    rw [dif_pos (by omega)]
    exact ih (step + 1) total (by omega)

/-- C8: from any initial step value not exceeding total_step (resumed or
zero), the training loop advances the counter by exactly 1 per iteration,
performs exactly total_step + 1 - initial iterations, and exits with the
counter equal to total_step + 1. -/
theorem train_loop_termination (s0 total : Nat) (h : s0 ≤ total) :
    loopIterCount s0 total = total + 1 - s0
    ∧ loopFinalStep s0 total = total + 1 :=
  ⟨loopIterCount_char (total + 1 - s0) s0 total (by omega),
   loopFinalStep_char (total + 1 - s0) s0 total (by omega)⟩

/-- C8, witnessed for a resume from step 2 with total_step 5. -/
theorem train_loop_termination_witness :
    2 ≤ 5 ∧ loopIterCount 2 5 = 5 + 1 - 2 ∧ loopFinalStep 2 5 = 5 + 1 :=
  ⟨by decide, train_loop_termination 2 5 (by decide)⟩

end Train
